import Mathlib

/-!
Verification development for the Court-Data-Fetcher repository
(src/backend/scraper.py, class CourtDataFetcher).

Shallow embedding conventions:
* Python `datetime` values are modelled at day granularity as `Int` day
  numbers (days since 1970-01-01, civil calendar); `datetime(y, m, d)` is
  `mkDatetime`, which fails (raises `ValueError`) outside the supported
  range, `strftime('%d/%m/%Y')` is `fmtDMY`, and `timedelta(days = k)` is
  integer addition.  Time-of-day is dropped: every comparison and format in
  the source that matters to the verified claims is at day granularity.
* `random.randint` / `random.choice` draws are explicit inputs, collected in
  `MockRand` / `OrderRand`; `MockRand.Valid` records exactly the ranges the
  source's calls guarantee (`randint(a, b)` inclusive bounds, `choice`
  indices below the list length).
* Effects of the Selenium / requests / OCR world are an explicit `LiveEnv`
  record consumed by the live path, and browser side effects are an explicit
  `BrowserAction` trace returned next to the result.
* A Python function that can raise is an `Except String` value; the raised
  message text is modelled by a constant (or an environment field) since the
  claims only depend on success/failure shape, except for literal messages
  present in the source ("CAPTCHA solving failed", "Failed to initialize web
  driver", "Timeout waiting for page to load").
-/

/-! ### Day-number calendar (proleptic Gregorian, epoch 1970-01-01) -/

/-- Civil date to day number (Howard Hinnant's `days_from_civil`). -/
def daysFromCivil (y m d : Int) : Int :=
  let y2 := y - (if m ≤ 2 then 1 else 0)
  let era := Int.fdiv y2 400
  let yoe := y2 - era * 400
  let mp := Int.fmod (m + 9) 12
  let doy := Int.fdiv (153 * mp + 2) 5 + d - 1
  let doe := yoe * 365 + Int.fdiv yoe 4 - Int.fdiv yoe 100 + doy
  era * 146097 + doe - 719468

/-- Day number back to civil date `(year, month, day)` (Hinnant's
`civil_from_days`). -/
def civilFromDays (z0 : Int) : Int × Int × Int :=
  let z := z0 + 719468
  let era := Int.fdiv z 146097
  let doe := z - era * 146097
  let yoe := Int.fdiv (doe - Int.fdiv doe 1460 + Int.fdiv doe 36524 - Int.fdiv doe 146096) 365
  let y := yoe + era * 400
  let doy := doe - (365 * yoe + Int.fdiv yoe 4 - Int.fdiv yoe 100)
  let mp := Int.fdiv (5 * doy + 2) 153
  let d := doy - Int.fdiv (153 * mp + 2) 5 + 1
  let m := mp + (if mp < 10 then 3 else -9)
  (y + (if m ≤ 2 then 1 else 0), m, d)

def isLeap (y : Int) : Bool :=
  (Int.fmod y 4 == 0 && Int.fmod y 100 != 0) || Int.fmod y 400 == 0

def daysInMonth (y m : Int) : Int :=
  if m = 2 then (if isLeap y then 29 else 28)
  else if m = 4 ∨ m = 6 ∨ m = 9 ∨ m = 11 then 30
  else 31

/-- Model of Python `datetime(y, m, d)`: raises `ValueError` outside
`MINYEAR..MAXYEAR` or for an invalid month/day, otherwise the day number. -/
def mkDatetime (y m d : Int) : Except String Int :=
  if 1 ≤ y ∧ y ≤ 9999 ∧ 1 ≤ m ∧ m ≤ 12 ∧ 1 ≤ d ∧ d ≤ daysInMonth y m then
    Except.ok (daysFromCivil y m d)
  else
    Except.error ("date value out of range")

def pad2 (n : Int) : String :=
  if n < 10 then "0" ++ toString n else toString n

def pad4 (n : Int) : String :=
  if n < 10 then "000" ++ toString n
  else if n < 100 then "00" ++ toString n
  else if n < 1000 then "0" ++ toString n
  else toString n

def fmtCivil (y m d : Int) : String :=
  pad2 d ++ "/" ++ pad2 m ++ "/" ++ pad4 y

/-- Model of `strftime('%d/%m/%Y')` on a day number. -/
def fmtDMY (z : Int) : String :=
  fmtCivil (civilFromDays z).1 (civilFromDays z).2.1 (civilFromDays z).2.2

def fmtCivilDots (y m d : Int) : String :=
  pad2 d ++ "." ++ pad2 m ++ "." ++ pad4 y

/-- Model of `strftime('%d.%m.%Y')` on a day number. -/
def fmtDotDMY (z : Int) : String :=
  fmtCivilDots (civilFromDays z).1 (civilFromDays z).2.1 (civilFromDays z).2.2

/-! ### Model of Python `int(str)` on the inputs this program meets -/

def digitsToNat (cs : List Char) : Nat :=
  cs.foldl (fun a c => a * 10 + (c.toNat - 48)) 0

/-- Leading/trailing-whitespace strip over the character list (the model of
Python `str.strip()` on the ASCII data this program handles). -/
def stripChars (cs : List Char) : List Char :=
  ((cs.dropWhile Char.isWhitespace).reverse.dropWhile Char.isWhitespace).reverse

def pyStrip (s : String) : String :=
  String.mk (stripChars s.toList)

/-- Model of `int(s)` for a decimal literal: strip whitespace, optional
sign, digits; `none` models the raised `ValueError`.  (Python's underscore
digit separators are not modelled; no caller of this program produces
them.) -/
def pyInt (s : String) : Option Int :=
  match stripChars s.toList with
  | [] => none
  | '-' :: rest =>
      if rest ≠ [] ∧ rest.all Char.isDigit then
        some (-(Int.ofNat (digitsToNat rest)))
      else none
  | '+' :: rest =>
      if rest ≠ [] ∧ rest.all Char.isDigit then
        some (Int.ofNat (digitsToNat rest))
      else none
  | cs =>
      if cs.all Char.isDigit then some (Int.ofNat (digitsToNat cs))
      else none

/-! ### Data model (dict shapes returned by scraper.py) -/

structure CaseTypeEntry where
  value : String
  label : String
deriving DecidableEq, Repr

/-- One entry of the `orders` list.  `dateDays` is the day number under the
formatted `date` string (the sort key `strptime(x['date'], '%d/%m/%Y')`
recovers exactly this day, the source's formatting having dropped
time-of-day). -/
structure OrderRecord where
  dateDays : Int
  date : String
  typ : String
  description : String
  pdf_link : String
  pages : Nat
deriving DecidableEq, Repr

/-- One entry of the `case_history` list; `dateDays` as in `OrderRecord`. -/
structure HistoryEvent where
  dateDays : Int
  date : String
  event : String
deriving DecidableEq, Repr

structure Parties where
  petitioner : String
  respondent : String
deriving DecidableEq, Repr

/-- The case-data dict.  Keys that appear only on the mock path
(`court_number`, `case_type_full`, `urgency`, `estimated_duration`) are
`Option`s: `none` models the key being absent from the dict, as on the
`parse_case_details` path. -/
structure CaseData where
  case_number : String
  parties : Parties
  filing_date : String
  next_hearing : String
  status : String
  judge : String
  court_number : Option String
  orders : List OrderRecord
  case_history : List HistoryEvent
  case_type_full : Option String
  urgency : Option String
  estimated_duration : Option String
deriving DecidableEq, Repr

/-- The outcome dicts of `fetch_case_data` / `fetch_case_data_real`:
`success` carries the data plus the optional `source` and `timestamp` keys
(`none` models the key being absent, as in `fetch_case_data_real`'s
`{'success': True, 'data': ...}`); `failure` is `{'success': False,
'error': ...}`, which carries no `source` key at all. -/
inductive FetchResult where
  | success (data : CaseData) (source : Option String) (timestamp : Option String)
  | failure (error : String)
deriving DecidableEq, Repr

def FetchResult.success? : FetchResult → Option CaseData
  | .success d _ _ => some d
  | .failure _ => none

def FetchResult.sourceTag : FetchResult → Option String
  | .success _ s _ => s
  | .failure _ => none

/-- Browser side effects of the live path, recorded as an explicit trace. -/
inductive BrowserAction where
  | navigate
  | fillForm
  | fillCaptcha (solution : String)
  | submitForm
  | quitDriver
deriving DecidableEq, Repr

/-! ### Explicit randomness for the mock-data generators -/

/-- Draws consumed per order by `_generate_mock_orders`. -/
structure OrderRand where
  offset : Nat
  typeIdx : Nat
  descIdx : Nat
  pages : Nat
deriving DecidableEq, Repr

def OrderRand.Valid (o : OrderRand) : Prop :=
  7 ≤ o.offset ∧ o.offset ≤ 365 ∧ o.typeIdx < 5 ∧ o.descIdx < 5 ∧
    1 ≤ o.pages ∧ o.pages ≤ 15

instance (o : OrderRand) : Decidable o.Valid := by
  unfold OrderRand.Valid; infer_instance

def defaultOrderRand : OrderRand := ⟨7, 0, 0, 1⟩

/-- All draws consumed by `_create_mock_case_data` and its two helpers. -/
structure MockRand where
  filingMonth : Nat
  filingDay : Nat
  hearingOffset : Nat
  petIdx : Nat
  respIdx : Nat
  statusIdx : Nat
  judgeIdx : Nat
  courtNo : Nat
  numOrders : Nat
  orderRands : List OrderRand
  numHistory : Nat
  historyGaps : List Nat
  urgencyIdx : Nat
  durationMin : Nat
deriving DecidableEq, Repr

/-- The ranges the source's `randint` / `choice` calls guarantee. -/
def MockRand.Valid (r : MockRand) : Prop :=
  1 ≤ r.filingMonth ∧ r.filingMonth ≤ 12 ∧
  1 ≤ r.filingDay ∧ r.filingDay ≤ 28 ∧
  7 ≤ r.hearingOffset ∧ r.hearingOffset ≤ 60 ∧
  r.petIdx < 8 ∧ r.respIdx < 8 ∧ r.statusIdx < 6 ∧ r.judgeIdx < 5 ∧
  1 ≤ r.courtNo ∧ r.courtNo ≤ 15 ∧
  1 ≤ r.numOrders ∧ r.numOrders ≤ 4 ∧
  (∀ i, i < r.numOrders → (r.orderRands.getD i defaultOrderRand).Valid) ∧
  2 ≤ r.numHistory ∧ r.numHistory ≤ 6 ∧
  r.historyGaps.length = r.numHistory ∧
  (∀ i, i < r.numHistory →
    15 ≤ r.historyGaps.getD i 15 ∧ r.historyGaps.getD i 15 ≤ 45) ∧
  r.urgencyIdx < 3 ∧ 15 ≤ r.durationMin ∧ r.durationMin ≤ 120

instance (r : MockRand) : Decidable r.Valid := by
  unfold MockRand.Valid; infer_instance

/-! ### Constant tables from scraper.py -/

/-- `CourtDataFetcher.get_case_types` (lines 51-71): the fixed list literal
the method returns on every call. -/
def get_case_types : List CaseTypeEntry :=
  [⟨"CRL.A", "CRL.A (Criminal Appeal)"⟩,
   ⟨"CRL.M.C", "CRL.M.C (Criminal Misc.)"⟩,
   ⟨"W.P.(C)", "W.P.(C) (Writ Petition Civil)"⟩,
   ⟨"W.P.(CRL)", "W.P.(CRL) (Writ Petition Criminal)"⟩,
   ⟨"C.M.", "C.M. (Civil Misc.)"⟩,
   ⟨"FAO", "FAO (First Appeal from Order)"⟩,
   ⟨"RFA", "RFA (Regular First Appeal)"⟩,
   ⟨"CS(OS)", "CS(OS) (Original Suit)"⟩,
   ⟨"CS(COMM)", "CS(COMM) (Commercial Suit)"⟩,
   ⟨"CONT.CAS(C)", "CONT.CAS(C) (Contempt Case Civil)"⟩,
   ⟨"ARB.P.", "ARB.P. (Arbitration Petition)"⟩,
   ⟨"I.A.", "I.A. (Interlocutory Application)"⟩,
   ⟨"CRL.REV.P.", "CRL.REV.P. (Criminal Revision Petition)"⟩,
   ⟨"BAIL APPLN.", "BAIL APPLN. (Bail Application)"⟩,
   ⟨"MAT.APP.", "MAT.APP. (Matrimonial Appeal)"⟩,
   ⟨"EFA", "EFA (Election First Appeal)"⟩,
   ⟨"LPA", "LPA (Letters Patent Appeal)"⟩]

def petitioner_names : List String :=
  ["Rajesh Kumar Singh", "Priya Sharma", "Amit Patel", "Sunita Gupta",
   "Vikas Agarwal", "Neha Verma", "Suresh Yadav", "Kavita Singh"]

def respondent_entities : List String :=
  ["State of Delhi", "Union of India", "Delhi Development Authority",
   "Municipal Corporation of Delhi", "Delhi Police", "Income Tax Department",
   "Central Bureau of Investigation", "Enforcement Directorate"]

def judges : List String :=
  ["Hon\x27ble Mr. Justice Rajiv Shakdher",
   "Hon\x27ble Ms. Justice Prathiba M. Singh",
   "Hon\x27ble Mr. Justice Suresh Kumar Kait",
   "Hon\x27ble Mr. Justice Navin Chawla",
   "Hon\x27ble Ms. Justice Mini Pushkarna"]

def case_statuses : List String :=
  ["Listed for hearing", "Pending for orders", "Under consideration",
   "Adjourned", "Notice issued", "Arguments concluded"]

def order_types : List String :=
  ["Order", "Notice", "Judgment", "Interim Order", "Direction"]

def order_outcomes : List String :=
  ["Matter adjourned", "Notice issued", "Arguments heard",
   "Interim relief granted", "Status report called"]

def urgencies : List String :=
  ["Normal", "Urgent", "Very Urgent"]

def history_events : List String :=
  ["First hearing scheduled", "Notice issued to respondent",
   "Counter affidavit filed", "Rejoinder filed", "Arguments heard",
   "Reserved for orders", "Interim order passed"]

/-- `_get_case_type_description`'s `descriptions` dict (lines 358-379). -/
def descriptions : List (String × String) :=
  [("CRL.A", "Criminal Appeal"),
   ("CRL.M.C", "Criminal Miscellaneous"),
   ("W.P.(C)", "Writ Petition (Civil)"),
   ("W.P.(CRL)", "Writ Petition (Criminal)"),
   ("C.M.", "Civil Miscellaneous"),
   ("FAO", "First Appeal from Order"),
   ("RFA", "Regular First Appeal"),
   ("CS(OS)", "Civil Suit (Original Side)"),
   ("CS(COMM)", "Commercial Suit"),
   ("CONT.CAS(C)", "Contempt Case (Civil)"),
   ("ARB.P.", "Arbitration Petition"),
   ("I.A.", "Interlocutory Application"),
   ("CRL.REV.P.", "Criminal Revision Petition"),
   ("BAIL APPLN.", "Bail Application"),
   ("MAT.APP.", "Matrimonial Appeal"),
   ("EFA", "Election First Appeal"),
   ("LPA", "Letters Patent Appeal")]

/-- `CourtDataFetcher._get_case_type_description` (lines 358-379):
`descriptions.get(case_type, case_type)`. -/
def _get_case_type_description (case_type : String) : String :=
  match descriptions.lookup case_type with
  | some d => d
  | none => case_type

/-- Python `str.lower()` followed by `.replace(" ", "_")`, as applied to the
ASCII entries of `order_types`. -/
def lowerUnderscore (s : String) : String :=
  String.mk (s.toList.map (fun c => if c = ' ' then '_' else c.toLower))

/-! ### Mock-data generators -/

/-- One entry built in the loop body of `_generate_mock_orders`
(lines 319-327); `i` is the loop index, `now` today's day number. -/
def mkOrder (case_number filing_year : String) (now : Int) (i : Nat)
    (o : OrderRand) : OrderRecord :=
  let orderDate := now - (o.offset : Int)
  { dateDays := orderDate
    date := fmtDMY orderDate
    typ := order_types.getD o.typeIdx ""
    description := "Order dated " ++ fmtDotDMY orderDate ++ " - " ++
      order_outcomes.getD o.descIdx ""
    pdf_link := "/download/" ++ lowerUnderscore (order_types.getD i "") ++
      "_" ++ case_number ++ "_" ++ filing_year ++ "_" ++ toString (i + 1) ++ ".pdf"
    pages := o.pages }

/-- Descending-by-date order used by the final `sorted(..., reverse=True)`:
`b`'s date at most `a`'s. -/
def orderDesc (a b : OrderRecord) : Prop :=
  b.dateDays ≤ a.dateDays

instance : DecidableRel orderDesc := fun a b => Int.decLe _ _

instance : IsTotal OrderRecord orderDesc :=
  ⟨fun a b => (le_total b.dateDays a.dateDays).imp id id⟩

instance : IsTrans OrderRecord orderDesc :=
  ⟨fun _ _ _ hab hbc => le_trans hbc hab⟩

/-- `CourtDataFetcher._generate_mock_orders` (lines 314-329): `n` orders,
each dated `now - randint(7, 365)` days, then sorted newest-first (a stable
sort on the parsed `date` strings, i.e. on `dateDays`). -/
def _generate_mock_orders (case_number filing_year : String) (now : Int)
    (n : Nat) (draws : List OrderRand) : List OrderRecord :=
  let raw := (List.range n).map
    (fun i => mkOrder case_number filing_year now i (draws.getD i defaultOrderRand))
  List.insertionSort orderDesc raw

/-- The `for event in events[:k]` loop of `_generate_mock_history`
(lines 347-354): each step advances `current_date` by the drawn gap and
appends the event only while `current_date <= datetime.now()`. -/
def historyLoop (now : Int) : Int → List (String × Nat) → List HistoryEvent
  | _, [] => []
  | cur, (ev, gap) :: rest =>
      let cur2 := cur + (gap : Int)
      if cur2 ≤ now then
        { dateDays := cur2, date := fmtDMY cur2, event := ev } ::
          historyLoop now cur2 rest
      else
        historyLoop now cur2 rest

/-- `CourtDataFetcher._generate_mock_history` (lines 331-356): the filing
event followed by up to `k` drawn events. -/
def _generate_mock_history (filingDate now : Int) (k : Nat)
    (gaps : List Nat) : List HistoryEvent :=
  { dateDays := filingDate, date := fmtDMY filingDate,
    event := "Case filed and registered" } ::
    historyLoop now filingDate ((history_events.take k).zip gaps)

/-- The dict literal returned by `_create_mock_case_data` (lines 296-312),
given the already-validated filing date day number. -/
def mockRecord (case_type case_number filing_year : String)
    (now filingDate : Int) (r : MockRand) : CaseData :=
  { case_number := case_type ++ " " ++ case_number ++ "/" ++ filing_year
    parties :=
      { petitioner := petitioner_names.getD r.petIdx ""
        respondent := respondent_entities.getD r.respIdx "" ++ " & Ors." }
    filing_date := fmtDMY filingDate
    next_hearing := fmtDMY (now + (r.hearingOffset : Int))
    status := case_statuses.getD r.statusIdx ""
    judge := judges.getD r.judgeIdx ""
    court_number := some ("Court No. " ++ toString r.courtNo)
    orders := _generate_mock_orders case_number filing_year now r.numOrders r.orderRands
    case_history := _generate_mock_history filingDate now r.numHistory r.historyGaps
    case_type_full := some (_get_case_type_description case_type)
    urgency := some (urgencies.getD r.urgencyIdx "")
    estimated_duration := some (toString r.durationMin ++ " minutes") }

/-- `CourtDataFetcher._create_mock_case_data` (lines 264-312).  The only
statements that can raise are `int(filing_year)` and the `datetime`
constructor for the filing date; an `Except.error` models that raise
escaping to the caller. -/
def _create_mock_case_data (case_type case_number filing_year : String)
    (now : Int) (r : MockRand) : Except String CaseData :=
  match pyInt filing_year with
  | none => Except.error ("invalid literal for int")
  | some y =>
    match mkDatetime y (r.filingMonth : Int) (r.filingDay : Int) with
    | Except.error e => Except.error e
    | Except.ok filingDate =>
        Except.ok (mockRecord case_type case_number filing_year now filingDate r)

/-! ### Result parser -/

/-- The dict literal built by `parse_case_details` (lines 210-222): every
extracted field is the hardcoded string `'Extracted from HTML'`; the
`orders` and `case_history` lists are empty; the mock-only keys are
absent. -/
def placeholderRecord (case_type case_number filing_year : String) : CaseData :=
  { case_number := case_type ++ " " ++ case_number ++ "/" ++ filing_year
    parties :=
      { petitioner := "Extracted from HTML"
        respondent := "Extracted from HTML" }
    filing_date := "Extracted from HTML"
    next_hearing := "Extracted from HTML"
    status := "Extracted from HTML"
    judge := "Extracted from HTML"
    court_number := none
    orders := []
    case_history := []
    case_type_full := none
    urgency := none
    estimated_duration := none }

/-- A results page, as the selectors a complete parser would use see it:
the field values present on the page, by field name.  The source never
dereferences `soup` (its selector lines 225-227 are commented out), so the
translation carries the page as an unused argument. -/
def Soup := List (String × String)

/-- `CourtDataFetcher.parse_case_details` (lines 204-233).  The `try` body
(lines 206-229) is a pure dict literal — the selector lines 225-227 are
commented out — so in the source no exception can escape it and the
`except` handler (lines 231-233) is dead code.  `soupRaises` exists only
to model the handler's text as written: `true` selects the dead branch,
which returns `_create_mock_case_data(...)` (whose own raise, if any,
escapes to the caller); every call the source can make has
`soupRaises = false`. -/
def parse_case_details (soup : Soup) (soupRaises : Bool)
    (case_type case_number filing_year : String) (now : Int) (r : MockRand) :
    Except String CaseData :=
  if soupRaises then
    _create_mock_case_data case_type case_number filing_year now r
  else
    Except.ok (placeholderRecord case_type case_number filing_year)

/-! ### CAPTCHA resolver -/

/-- What the OCR world does with a given image file: whether the file is
there, whether `pytesseract` raises on it, and otherwise the raw text it
returns (before `.strip()`). -/
structure CaptchaEnv where
  fileExists : Bool
  ocrRaises : Bool
  ocrOutput : String
deriving DecidableEq, Repr

/-- `CourtDataFetcher.solve_captcha` (lines 92-120).  `serviceKey` is
`self.captcha_service_key`.  When the image file exists the OCR branch
returns the stripped OCR text (an exception yields `""` via the handler at
lines 118-120); otherwise the external-service branch is a no-op (`pass`)
even when a key is configured, and the fallback `return ""` is reached.
The empty string is the source's encoding of `Failure(CaptchaUnsolved)`
("manual intervention needed"). -/
def solve_captcha (serviceKey : String) (c : CaptchaEnv) : String :=
  if c.fileExists then
    if c.ocrRaises then "" else pyStrip c.ocrOutput
  else
    ""

/-! ### Live path (`fetch_case_data_real`) -/

/-- The external world a live fetch meets, one field per effectful step of
`fetch_case_data_real` that the source can actually reach: driver setup,
the first bounded wait, the form-field lookups, the CAPTCHA image and OCR.
Message fields carry the `str(e)` of the corresponding exception.  The
steps after the submit-button lookup (results wait, parsing) have no
fields because that lookup always raises — see `realSubmit`. -/
structure LiveEnv where
  driverOk : Bool
  pageLoadTimeout : Bool
  formFieldMissing : Bool
  formErrorMsg : String
  captchaPresent : Bool
  captchaDownloadRaises : Bool
  downloadErrorMsg : String
  ocrRaises : Bool
  ocrOutput : String
deriving Repr

/-- The `str(e)` of the `AttributeError` raised by line 182 (Selenium's
`By` class has no `TYPE` attribute). -/
def submitAttributeError : String :=
  "type object \x27By\x27 has no attribute \x27TYPE\x27"

/-- The submit step (lines 181-194).  Line 182 is
`driver.find_element(By.TYPE, "submit")`; Selenium's `By` has no `TYPE`
attribute, so evaluating `By.TYPE` unconditionally raises
`AttributeError`, which the generic handler (lines 198-200) returns as
`{'success': False, 'error': str(e)}`.  The rest of the block — the
click, the results wait and the `parse_case_details` call (lines
183-194) — is dead code, so the form is never submitted and no live
fetch ever produces a success outcome.  `acts` are the browser actions
already performed after navigation. -/
def realSubmit (acts : List BrowserAction) : FetchResult × List BrowserAction :=
  (FetchResult.failure submitAttributeError, acts)

/-- The `try` body of `fetch_case_data_real` after `driver.get` (lines
135-194), returning the outcome and the browser actions after
navigation. -/
def realBody (case_type case_number filing_year serviceKey : String)
    (now : Int) (r : MockRand) (env : LiveEnv) :
    FetchResult × List BrowserAction :=
  if env.pageLoadTimeout then
    (FetchResult.failure ("Timeout waiting for page to load"), [])
  else if env.formFieldMissing then
    (FetchResult.failure env.formErrorMsg, [])
  else if env.captchaPresent then
    if env.captchaDownloadRaises then
      (FetchResult.failure env.downloadErrorMsg, [BrowserAction.fillForm])
    else
      let sol := solve_captcha serviceKey
        { fileExists := true, ocrRaises := env.ocrRaises, ocrOutput := env.ocrOutput }
      if sol = "" then
        (FetchResult.failure ("CAPTCHA solving failed"), [BrowserAction.fillForm])
      else
        realSubmit [BrowserAction.fillForm, BrowserAction.fillCaptcha sol]
  else
    realSubmit [BrowserAction.fillForm]

/-- `CourtDataFetcher.fetch_case_data_real` (lines 122-202).  If the driver
cannot be set up the method returns before any browser interaction;
otherwise it navigates, runs the body, and the `finally` block always quits
the driver. -/
def fetch_case_data_real (case_type case_number filing_year serviceKey : String)
    (now : Int) (r : MockRand) (env : LiveEnv) :
    FetchResult × List BrowserAction :=
  if env.driverOk then
    ((realBody case_type case_number filing_year serviceKey now r env).1,
      BrowserAction.navigate ::
        ((realBody case_type case_number filing_year serviceKey now r env).2 ++
          [BrowserAction.quitDriver]))
  else
    (FetchResult.failure ("Failed to initialize web driver"), [])

/-! ### Public entry point -/

/-- `CourtDataFetcher.fetch_case_data` (lines 235-262).  The call to
`fetch_case_data_real` (line 245) is commented out in the source, so the
method only sleeps (no modelled effect), builds mock data, and wraps it
with `'source': 'mock_data'` and the current ISO timestamp; the `except`
handler turns a raise from the generator into `{'success': False,
'error': str(e)}`.  `env` is the live environment the commented-out call
would consume — the result may not depend on it — and the returned trace
records the browser actions performed (none). -/
def fetch_case_data (case_type case_number filing_year : String)
    (now : Int) (nowIso : String) (r : MockRand) (env : LiveEnv) :
    FetchResult × List BrowserAction :=
  match _create_mock_case_data case_type case_number filing_year now r with
  | Except.ok d =>
      (FetchResult.success d (some ("mock_data")) (some nowIso), [])
  | Except.error e => (FetchResult.failure e, [])

/-! ### Shared concrete inputs for witnesses and counterexamples -/

def r0 : MockRand :=
  { filingMonth := 3, filingDay := 10, hearingOffset := 10,
    petIdx := 0, respIdx := 0, statusIdx := 0, judgeIdx := 0,
    courtNo := 1, numOrders := 2,
    orderRands := [⟨10, 0, 0, 3⟩, ⟨20, 1, 1, 2⟩],
    numHistory := 2, historyGaps := [20, 30],
    urgencyIdx := 0, durationMin := 30 }

def now0 : Int := 20000

def iso0 : String := "2026-10-12T12:00:00"

/-- A live environment in which driver setup, page load and the form-field
lookups all succeed and no CAPTCHA is present. -/
def envGood : LiveEnv :=
  { driverOk := true, pageLoadTimeout := false, formFieldMissing := false,
    formErrorMsg := "", captchaPresent := false, captchaDownloadRaises := false,
    downloadErrorMsg := "", ocrRaises := false, ocrOutput := "" }

/-- As `envGood`, but a CAPTCHA is present and OCR raises on it. -/
def envCaptchaBad : LiveEnv :=
  { envGood with captchaPresent := true, ocrRaises := true }

/-- The mock record the shared concrete inputs generate. -/
def mock0 : CaseData :=
  match _create_mock_case_data ("W.P.(C)") ("1234") ("2023") now0 r0 with
  | Except.ok d => d
  | Except.error _ => placeholderRecord ("") ("") ("")

/-! ### Helper lemmas -/

lemma ne_empty_of_length_pos {s : String} (h : 0 < s.length) : s ≠ "" := by
  intro he
  rw [he] at h
  exact absurd h (by decide)

lemma append_ne_empty_right (a b : String) (h : 0 < b.length) :
    a ++ b ≠ "" := by
  apply ne_empty_of_length_pos
  rw [String.length_append]
  omega

lemma append_ne_empty_left (a b : String) (h : 0 < a.length) :
    a ++ b ≠ "" := by
  apply ne_empty_of_length_pos
  rw [String.length_append]
  omega

lemma slash_length : ("/" : String).length = 1 := rfl

lemma fmtCivil_ne_empty (y m d : Int) : fmtCivil y m d ≠ "" := by
  apply ne_empty_of_length_pos
  unfold fmtCivil
  simp only [String.length_append, slash_length]
  omega

lemma fmtDMY_ne_empty (z : Int) : fmtDMY z ≠ "" := by
  unfold fmtDMY
  exact fmtCivil_ne_empty _ _ _

lemma daysInMonth_ge_28 (y m : Int) : 28 ≤ daysInMonth y m := by
  unfold daysInMonth
  split_ifs <;> simp

lemma lookup_eq_none_of_not_key {l : List (String × String)} {k : String}
    (h : ∀ p ∈ l, p.1 ≠ k) : l.lookup k = none := by
  induction l with
  | nil => rfl
  | cons a rest ih =>
      have ha : (k == a.1) = false := by
        rw [beq_eq_false_iff_ne]
        exact fun hk => h a (List.mem_cons_self a rest) hk.symm
      simp only [List.lookup, ha]
      exact ih (fun p hp => h p (List.mem_cons_of_mem a hp))

lemma petitioner_names_getD_ne (i : Nat) (h : i < 8) :
    petitioner_names.getD i "" ≠ "" := by
  interval_cases i <;> decide

lemma respondent_entities_getD_ne (i : Nat) (h : i < 8) :
    respondent_entities.getD i "" ≠ "" := by
  interval_cases i <;> decide

lemma judges_getD_ne (i : Nat) (h : i < 5) :
    judges.getD i "" ≠ "" := by
  interval_cases i <;> decide

lemma case_statuses_getD_ne (i : Nat) (h : i < 6) :
    case_statuses.getD i "" ≠ "" := by
  interval_cases i <;> decide

lemma urgencies_getD_ne (i : Nat) (h : i < 3) :
    urgencies.getD i "" ≠ "" := by
  interval_cases i <;> decide

lemma gen_orders_length (cn fy : String) (now : Int) (n : Nat)
    (draws : List OrderRand) :
    (_generate_mock_orders cn fy now n draws).length = n := by
  unfold _generate_mock_orders
  rw [(List.perm_insertionSort orderDesc _).length_eq]
  simp

lemma historyLoop_ge (now : Int) :
    ∀ (pairs : List (String × Nat)) (cur : Int),
      ∀ e ∈ historyLoop now cur pairs, cur ≤ e.dateDays := by
  intro pairs
  induction pairs with
  | nil => intro cur e he; simp [historyLoop] at he
  | cons p rest ih =>
      intro cur e he
      obtain ⟨ev, gap⟩ := p
      simp only [historyLoop] at he
      by_cases hle : cur + (gap : Int) ≤ now
      · rw [if_pos hle] at he
        rcases List.mem_cons.mp he with he | he
        · rw [he]
          show cur ≤ cur + (gap : Int)
          omega
        · have := ih (cur + (gap : Int)) e he
          omega
      · rw [if_neg hle] at he
        have := ih (cur + (gap : Int)) e he
        omega

lemma historyLoop_sorted (now : Int) :
    ∀ (pairs : List (String × Nat)) (cur : Int),
      List.Pairwise (fun a b => a.dateDays ≤ b.dateDays)
        (historyLoop now cur pairs) := by
  intro pairs
  induction pairs with
  | nil => intro cur; simp [historyLoop]
  | cons p rest ih =>
      intro cur
      obtain ⟨ev, gap⟩ := p
      simp only [historyLoop]
      by_cases hle : cur + (gap : Int) ≤ now
      · rw [if_pos hle]
        refine List.pairwise_cons.mpr ⟨?_, ih _⟩
        intro e he
        exact historyLoop_ge now rest (cur + (gap : Int)) e he
      · rw [if_neg hle]
        exact ih _

lemma space_length : (" " : String).length = 1 := rfl

lemma composed_case_number_ne (a b c : String) :
    a ++ " " ++ b ++ "/" ++ c ≠ "" := by
  apply ne_empty_of_length_pos
  simp only [String.length_append, space_length, slash_length]
  omega

lemma create_mock_ok (ct cn fy : String) (now : Int) (r : MockRand) (y : Int)
    (hy : pyInt fy = some y) (h1 : 1 ≤ y) (h2 : y ≤ 9999)
    (hm1 : 1 ≤ r.filingMonth) (hm2 : r.filingMonth ≤ 12)
    (hd1 : 1 ≤ r.filingDay) (hd2 : r.filingDay ≤ 28) :
    _create_mock_case_data ct cn fy now r
      = Except.ok (mockRecord ct cn fy now
          (daysFromCivil y (r.filingMonth : Int) (r.filingDay : Int)) r) := by
  have hmk : mkDatetime y (r.filingMonth : Int) (r.filingDay : Int)
      = Except.ok (daysFromCivil y (r.filingMonth : Int) (r.filingDay : Int)) := by
    unfold mkDatetime
    rw [if_pos]
    have h28 := daysInMonth_ge_28 y (r.filingMonth : Int)
    refine ⟨h1, h2, ?_, ?_, ?_, ?_⟩ <;> omega
  simp only [_create_mock_case_data, hy, hmk]

lemma realBody_never_success (ct cn fy sk : String) (now : Int)
    (r : MockRand) (env : LiveEnv) (d : CaseData) (s t : Option String) :
    (realBody ct cn fy sk now r env).1 ≠ FetchResult.success d s t := by
  intro h
  unfold realBody at h
  split_ifs at h
  · by_cases hsol : solve_captcha sk
        { fileExists := true, ocrRaises := env.ocrRaises,
          ocrOutput := env.ocrOutput } = ""
    · rw [if_pos hsol] at h
      simp at h
    · rw [if_neg hsol] at h
      simp [realSubmit] at h
  · simp [realSubmit] at h

lemma realBody_no_empty_captcha (ct cn fy sk : String) (now : Int)
    (r : MockRand) (env : LiveEnv) :
    BrowserAction.fillCaptcha "" ∉ (realBody ct cn fy sk now r env).2 := by
  unfold realBody
  split_ifs with h1 h2 h3 h4
  · simp
  · simp
  · simp
  · by_cases hsol : solve_captcha sk
        { fileExists := true, ocrRaises := env.ocrRaises,
          ocrOutput := env.ocrOutput } = ""
    · rw [if_pos hsol]
      simp
    · rw [if_neg hsol]
      intro hmem
      simp [realSubmit] at hmem
      exact hsol hmem.symm
  · simp [realSubmit]

/-! ### Claim theorems -/

/-- C8: `get_case_types` is a constant of the embedding, so every call
returns the same order-preserving enumeration; it has exactly 17 entries,
every code (`value`) is a non-empty string, and no two entries share a
code. -/
theorem case_types_enumeration :
    get_case_types.length = 17 ∧
    (get_case_types.all fun e => !e.value.isEmpty) = true ∧
    (get_case_types.map CaseTypeEntry.value).Nodup := by
  refine ⟨rfl, rfl, ?_⟩
  decide

/-- C10: `_get_case_type_description` is total: on each of the 17
enumerated codes it returns that code's full description, and on any
string that is not a key of the enumeration it returns the input
unchanged. -/
theorem case_type_description_total :
    (∀ ct d, (ct, d) ∈ descriptions → _get_case_type_description ct = d) ∧
    (∀ ct, (∀ p ∈ descriptions, p.1 ≠ ct) → _get_case_type_description ct = ct) := by
  constructor
  · intro ct d h
    fin_cases h <;> rfl
  · intro ct h
    unfold _get_case_type_description
    rw [lookup_eq_none_of_not_key h]

theorem case_type_description_total_witness :
    _get_case_type_description ("LPA") = "Letters Patent Appeal" ∧
    _get_case_type_description ("ZZZ") = "ZZZ" :=
  ⟨case_type_description_total.1 ("LPA") ("Letters Patent Appeal") (by decide),
   case_type_description_total.2 ("ZZZ") (by decide)⟩

/-- C6: every generated history starts at the filing date, its dates are
non-decreasing and all at least the filing date; every generated orders
list is sorted descending by date and every order date is at most `now`
(order dates are `now - offset` with a non-negative drawn offset). -/
theorem mock_generators_ordering (cn fy : String) (filing now : Int)
    (k n : Nat) (gaps : List Nat) (draws : List OrderRand) :
    (_generate_mock_history filing now k gaps).head?.map HistoryEvent.dateDays
        = some filing ∧
    List.Pairwise (fun a b => a.dateDays ≤ b.dateDays)
      (_generate_mock_history filing now k gaps) ∧
    (∀ e ∈ _generate_mock_history filing now k gaps, filing ≤ e.dateDays) ∧
    List.Pairwise (fun a b => b.dateDays ≤ a.dateDays)
      (_generate_mock_orders cn fy now n draws) ∧
    (∀ o ∈ _generate_mock_orders cn fy now n draws, o.dateDays ≤ now) := by
  refine ⟨rfl, ?_, ?_, ?_, ?_⟩
  · unfold _generate_mock_history
    refine List.pairwise_cons.mpr ⟨?_, historyLoop_sorted now _ _⟩
    intro e he
    exact historyLoop_ge now _ filing e he
  · intro e he
    unfold _generate_mock_history at he
    rcases List.mem_cons.mp he with he | he
    · rw [he]
    · exact historyLoop_ge now _ filing e he
  · have h := List.sorted_insertionSort orderDesc
      ((List.range n).map
        (fun i => mkOrder cn fy now i (draws.getD i defaultOrderRand)))
    unfold _generate_mock_orders
    exact h
  · intro o ho
    unfold _generate_mock_orders at ho
    rw [List.mem_insertionSort] at ho
    rcases List.mem_map.mp ho with ⟨i, _, hi⟩
    rw [← hi]
    show now - ((draws.getD i defaultOrderRand).offset : Int) ≤ now
    omega

theorem mock_generators_ordering_witness :
    ((_generate_mock_orders ("1234") ("2023") 20000 2 r0.orderRands).getD 0
        (mkOrder ("1234") ("2023") 20000 0 defaultOrderRand)).dateDays ≤ 20000 := by
  have h := (mock_generators_ordering ("1234") ("2023") 19426 20000 2 2
      [20, 30] r0.orderRands).2.2.2.2
  exact h _ (by decide)

/-- C1: the public entry point performs no browser action, its result does
not depend on the live environment and is exactly the mock-generator
outcome (tagged `'mock_data'` on success), while any live fetch whose
driver initializes necessarily performs browser actions — so the
browser-driven path of `fetch_case_data_real` is unreachable from
`fetch_case_data` (whose call to it, source line 245, is commented out;
no mode or toggle parameter exists). -/
theorem fetch_case_data_never_live (ct cn fy sk : String) (now : Int)
    (nowIso : String) (r : MockRand) (env env2 : LiveEnv) :
    (fetch_case_data ct cn fy now nowIso r env).2 = [] ∧
    fetch_case_data ct cn fy now nowIso r env
      = fetch_case_data ct cn fy now nowIso r env2 ∧
    (fetch_case_data ct cn fy now nowIso r env).1 =
      (match _create_mock_case_data ct cn fy now r with
       | Except.ok d => FetchResult.success d (some ("mock_data")) (some nowIso)
       | Except.error e => FetchResult.failure e) ∧
    (env2.driverOk = true →
      (fetch_case_data_real ct cn fy sk now r env2).2 ≠ []) := by
  refine ⟨?_, rfl, ?_, ?_⟩
  · unfold fetch_case_data
    cases _create_mock_case_data ct cn fy now r <;> rfl
  · unfold fetch_case_data
    cases _create_mock_case_data ct cn fy now r <;> rfl
  · intro hd
    simp [fetch_case_data_real, hd]

theorem fetch_case_data_never_live_witness :
    (fetch_case_data ("W.P.(C)") ("1234") ("2023") now0 iso0 r0 envGood).2 = [] ∧
    (fetch_case_data_real ("W.P.(C)") ("1234") ("2023") ("") now0 r0 envGood).2 ≠ [] :=
  ⟨(fetch_case_data_never_live ("W.P.(C)") ("1234") ("2023") ("") now0 iso0 r0
      envGood envGood).1,
   (fetch_case_data_never_live ("W.P.(C)") ("1234") ("2023") ("") now0 iso0 r0
      envGood envGood).2.2.2 rfl⟩

/-- C2 counterexample: on the empty results page (every required field
missing) and a parse body that completes, `parse_case_details` returns
success with the hardcoded placeholder record — not `Failure(ParseError)` —
and the record's required fields hold the placeholder string
`'Extracted from HTML'`. -/
theorem parse_missing_fields_counterexample :
    parse_case_details [] false ("W.P.(C)") ("1234") ("2023") now0 r0
      = Except.ok (placeholderRecord ("W.P.(C)") ("1234") ("2023")) ∧
    (placeholderRecord ("W.P.(C)") ("1234") ("2023")).parties.petitioner
      = "Extracted from HTML" ∧
    (placeholderRecord ("W.P.(C)") ("1234") ("2023")).filing_date
      = "Extracted from HTML" :=
  ⟨rfl, rfl, rfl⟩

/-- C2 (amended): `parse_case_details` never returns a parse failure.  For
every results page — in particular one missing any required field — the
non-raising path returns success with the hardcoded placeholder record,
whose extracted fields all hold `'Extracted from HTML'`; the raising path
returns the mock-generator result instead. -/
theorem parse_placeholder_behavior (soup : Soup) (ct cn fy : String)
    (now : Int) (r : MockRand) :
    parse_case_details soup false ct cn fy now r
        = Except.ok (placeholderRecord ct cn fy) ∧
    parse_case_details soup true ct cn fy now r
        = _create_mock_case_data ct cn fy now r ∧
    (placeholderRecord ct cn fy).parties.petitioner = "Extracted from HTML" ∧
    (placeholderRecord ct cn fy).parties.respondent = "Extracted from HTML" ∧
    (placeholderRecord ct cn fy).filing_date = "Extracted from HTML" ∧
    (placeholderRecord ct cn fy).next_hearing = "Extracted from HTML" ∧
    (placeholderRecord ct cn fy).status = "Extracted from HTML" ∧
    (placeholderRecord ct cn fy).judge = "Extracted from HTML" :=
  ⟨rfl, rfl, rfl, rfl, rfl, rfl, rfl, rfl⟩

/-- C3: every component-level error that can arise during a fetch
propagates to the caller as a typed failure outcome, and no error is ever
converted into a success outcome carrying placeholder or mock data.
Driver-setup failure, the page-load timeout, a missing form field, a
CAPTCHA-download error and an unsolved CAPTCHA each yield the
corresponding failure dict.  Once the submit lookup is reached, `By.TYPE`
(line 182) raises `AttributeError` unconditionally, which the generic
handler returns as a typed failure, so the live path never returns a
success outcome at all — in particular the mock fallback inside
`parse_case_details`, which is dead code, never surfaces as success.  On
the synthetic path an error raised by the mock generator likewise
propagates as a failure outcome. -/
theorem error_propagation_typed (ct cn fy sk : String) (now : Int)
    (nowIso : String) (r : MockRand) (env : LiveEnv) :
    (env.driverOk = false →
      (fetch_case_data_real ct cn fy sk now r env).1
        = FetchResult.failure ("Failed to initialize web driver")) ∧
    (env.driverOk = true → env.pageLoadTimeout = true →
      (fetch_case_data_real ct cn fy sk now r env).1
        = FetchResult.failure ("Timeout waiting for page to load")) ∧
    (env.driverOk = true → env.pageLoadTimeout = false →
      env.formFieldMissing = true →
      (fetch_case_data_real ct cn fy sk now r env).1
        = FetchResult.failure env.formErrorMsg) ∧
    (env.driverOk = true → env.pageLoadTimeout = false →
      env.formFieldMissing = false → env.captchaPresent = true →
      env.captchaDownloadRaises = true →
      (fetch_case_data_real ct cn fy sk now r env).1
        = FetchResult.failure env.downloadErrorMsg) ∧
    (env.driverOk = true → env.pageLoadTimeout = false →
      env.formFieldMissing = false → env.captchaPresent = true →
      env.captchaDownloadRaises = false →
      solve_captcha sk
        { fileExists := true, ocrRaises := env.ocrRaises,
          ocrOutput := env.ocrOutput } = "" →
      (fetch_case_data_real ct cn fy sk now r env).1
        = FetchResult.failure ("CAPTCHA solving failed")) ∧
    (env.driverOk = true → env.pageLoadTimeout = false →
      env.formFieldMissing = false → env.captchaPresent = false →
      (fetch_case_data_real ct cn fy sk now r env).1
        = FetchResult.failure submitAttributeError) ∧
    (∀ d s t, (fetch_case_data_real ct cn fy sk now r env).1
      ≠ FetchResult.success d s t) ∧
    (∀ e, _create_mock_case_data ct cn fy now r = Except.error e →
      fetch_case_data ct cn fy now nowIso r env
        = (FetchResult.failure e, [])) := by
  refine ⟨?_, ?_, ?_, ?_, ?_, ?_, ?_, ?_⟩
  · intro h
    simp [fetch_case_data_real, h]
  · intro h1 h2
    simp [fetch_case_data_real, realBody, h1, h2]
  · intro h1 h2 h3
    simp [fetch_case_data_real, realBody, h1, h2, h3]
  · intro h1 h2 h3 h4 h5
    simp [fetch_case_data_real, realBody, h1, h2, h3, h4, h5]
  · intro h1 h2 h3 h4 h5 hsol
    simp [fetch_case_data_real, realBody, h1, h2, h3, h4, h5, hsol]
  · intro h1 h2 h3 h4
    simp [fetch_case_data_real, realBody, realSubmit, h1, h2, h3, h4]
  · intro d s t h
    unfold fetch_case_data_real at h
    by_cases hd : env.driverOk
    · rw [if_pos hd] at h
      exact realBody_never_success ct cn fy sk now r env d s t h
    · rw [if_neg hd] at h
      simp at h
  · intro e he
    unfold fetch_case_data
    rw [he]

theorem error_propagation_typed_witness :
    (fetch_case_data_real ("W.P.(C)") ("1234") ("2023") ("") now0 r0
        envGood).1
      = FetchResult.failure submitAttributeError ∧
    (fetch_case_data_real ("W.P.(C)") ("1234") ("2023") ("") now0 r0
        envGood).1
      ≠ FetchResult.success mock0 none none :=
  ⟨(error_propagation_typed ("W.P.(C)") ("1234") ("2023") ("") now0 iso0 r0
      envGood).2.2.2.2.2.1 rfl rfl rfl rfl,
   (error_propagation_typed ("W.P.(C)") ("1234") ("2023") ("") now0 iso0 r0
      envGood).2.2.2.2.2.2.1 mock0 none none⟩

/-- C4 counterexample: a failure outcome of `fetch_case_data` (unparsable
filing year) carries no source tag at all; the synthetic success tag is
the string `'mock_data'`, which is neither `'live'` nor `'synthetic'`; and
a live-path success outcome (`fetch_case_data_real`) also carries no
source tag. -/
theorem source_tag_counterexample :
    (fetch_case_data ("W.P.(C)") ("1234") ("abc") now0 iso0 r0 envGood).1.success?
      = none ∧
    (fetch_case_data ("W.P.(C)") ("1234") ("abc") now0 iso0 r0 envGood).1.sourceTag
      = none ∧
    (fetch_case_data ("W.P.(C)") ("1234") ("2023") now0 iso0 r0 envGood).1.sourceTag
      = some ("mock_data") ∧
    ("mock_data" ≠ "live" ∧ "mock_data" ≠ "synthetic") ∧
    (fetch_case_data_real ("W.P.(C)") ("1234") ("2023") ("") now0 r0 envGood).1.sourceTag
      = none :=
  ⟨rfl, rfl, rfl, ⟨by decide, by decide⟩, rfl⟩

/-- C4 (amended): every success outcome of `fetch_case_data` carries the
source tag `'mock_data'` — a synthetic marker, never `'live'` — while
failure outcomes and all outcomes of the live path `fetch_case_data_real`
carry no source tag. -/
theorem source_tag_amended (ct cn fy sk : String) (now : Int) (nowIso : String)
    (r : MockRand) (env : LiveEnv) :
    (∀ d s t, (fetch_case_data ct cn fy now nowIso r env).1
        = FetchResult.success d s t →
      s = some ("mock_data") ∧ s ≠ some ("live")) ∧
    (∀ e, (fetch_case_data ct cn fy now nowIso r env).1
        = FetchResult.failure e →
      (fetch_case_data ct cn fy now nowIso r env).1.sourceTag = none) ∧
    (∀ d s t, (fetch_case_data_real ct cn fy sk now r env).1
        = FetchResult.success d s t → s = none) := by
  refine ⟨?_, ?_, ?_⟩
  · intro d s t h
    unfold fetch_case_data at h
    revert h
    cases _create_mock_case_data ct cn fy now r with
    | ok d0 =>
        intro h
        simp only [FetchResult.success.injEq] at h
        refine ⟨h.2.1.symm, ?_⟩
        rw [← h.2.1]
        simp
    | error e => intro h; simp at h
  · intro e h
    rw [h]
    rfl
  · intro d s t h
    unfold fetch_case_data_real at h
    by_cases hd : env.driverOk
    · rw [if_pos hd] at h
      exact (realBody_never_success ct cn fy sk now r env d s t h).elim
    · rw [if_neg hd] at h
      simp at h

theorem source_tag_amended_witness :
    (some ("mock_data") : Option String) = some ("mock_data") ∧
    (some ("mock_data") : Option String) ≠ some ("live") :=
  (source_tag_amended ("W.P.(C)") ("1234") ("2023") ("") now0 iso0 r0 envGood).1
    mock0 (some ("mock_data")) (some iso0) rfl

/-- C5: on an unreadable CAPTCHA image (OCR raises or yields only
whitespace) with no service credential configured, `solve_captcha` returns
the empty string — the source's encoding of `Failure(CaptchaUnsolved)` —
and the live path then returns the failure outcome
`'CAPTCHA solving failed'` without ever submitting the form; moreover in
no environment does the live path ever fill the CAPTCHA field with an
empty solution. -/
theorem captcha_unsolved_no_submit (sk ct cn fy : String) (now : Int)
    (r : MockRand) (env : LiveEnv)
    (hsk : sk = "")
    (hunread : env.ocrRaises = true ∨ pyStrip env.ocrOutput = "")
    (h1 : env.driverOk = true) (h2 : env.pageLoadTimeout = false)
    (h3 : env.formFieldMissing = false) (h4 : env.captchaPresent = true)
    (h5 : env.captchaDownloadRaises = false) :
    solve_captcha sk
      { fileExists := true, ocrRaises := env.ocrRaises,
        ocrOutput := env.ocrOutput } = "" ∧
    (fetch_case_data_real ct cn fy sk now r env).1
      = FetchResult.failure ("CAPTCHA solving failed") ∧
    BrowserAction.submitForm ∉ (fetch_case_data_real ct cn fy sk now r env).2 ∧
    (∀ env2 : LiveEnv, BrowserAction.fillCaptcha ""
      ∉ (fetch_case_data_real ct cn fy sk now r env2).2) := by
  have hsol : solve_captcha sk
      { fileExists := true, ocrRaises := env.ocrRaises,
        ocrOutput := env.ocrOutput } = "" := by
    rcases hunread with h | h
    · simp [solve_captcha, h]
    · by_cases hraise : env.ocrRaises
      · simp [solve_captcha, hraise]
      · simp [solve_captcha, hraise, h]
  have hfetch : fetch_case_data_real ct cn fy sk now r env =
      (FetchResult.failure ("CAPTCHA solving failed"),
       [BrowserAction.navigate, BrowserAction.fillForm,
        BrowserAction.quitDriver]) := by
    simp [fetch_case_data_real, realBody, h1, h2, h3, h4, h5, hsol]
  refine ⟨hsol, ?_, ?_, ?_⟩
  · rw [hfetch]
  · rw [hfetch]
    decide
  · intro env2 hmem
    unfold fetch_case_data_real at hmem
    by_cases hd : env2.driverOk
    · rw [if_pos hd] at hmem
      simp only [List.mem_cons, List.mem_append, List.mem_singleton] at hmem
      rcases hmem with h | h | h
      · simp at h
      · exact realBody_no_empty_captcha ct cn fy sk now r env2 h
      · simp at h
    · rw [if_neg hd] at hmem
      simp at hmem

theorem captcha_unsolved_no_submit_witness :
    (fetch_case_data_real ("W.P.(C)") ("1234") ("2023") ("") now0 r0
        envCaptchaBad).1
      = FetchResult.failure ("CAPTCHA solving failed") :=
  (captcha_unsolved_no_submit ("") ("W.P.(C)") ("1234") ("2023") now0 r0
      envCaptchaBad rfl (Or.inl rfl) rfl rfl rfl rfl rfl).2.1

/-- C7: for the query case_type `'W.P.(C)'`, case_number `'1234'`,
filing_year `'2023'` on the (only) synthetic path, `fetch_case_data`
returns a success outcome whose `case_number` field is exactly
`'W.P.(C) 1234/2023'`, for every in-range draw of the generator's
randomness. -/
theorem scenario_wpc_1234_2023 (now : Int) (nowIso : String) (r : MockRand)
    (env : LiveEnv) (hr : r.Valid) :
    ((fetch_case_data ("W.P.(C)") ("1234") ("2023") now nowIso r env).1.success?).map
        CaseData.case_number = some ("W.P.(C) 1234/2023") ∧
    (fetch_case_data ("W.P.(C)") ("1234") ("2023") now nowIso r env).1.sourceTag
      = some ("mock_data") := by
  obtain ⟨hm1, hm2, hd1, hd2, _⟩ := hr
  have hc := create_mock_ok ("W.P.(C)") ("1234") ("2023") now r 2023
    (by decide) (by decide) (by decide) hm1 hm2 hd1 hd2
  constructor
  · simp only [fetch_case_data, hc]
    show some ("W.P.(C)" ++ " " ++ "1234" ++ "/" ++ "2023")
      = some ("W.P.(C) 1234/2023")
    decide
  · simp only [fetch_case_data, hc]
    rfl

theorem scenario_wpc_1234_2023_witness :
    ((fetch_case_data ("W.P.(C)") ("1234") ("2023") now0 iso0 r0 envGood).1.success?).map
        CaseData.case_number = some ("W.P.(C) 1234/2023") :=
  (scenario_wpc_1234_2023 now0 iso0 r0 envGood (by decide)).1

/-- C9: for every validated query (all-digit case number of at most 10
digits, filing year parsing to an integer in [2000, current year]) and
every in-range draw of the generator's randomness, the synthetic path of
`fetch_case_data` returns a success outcome tagged `'mock_data'` whose
record has every field populated — so the `except` failure branch is
unreachable under the upstream validator's precondition. -/
theorem synthetic_path_total (ct cn fy : String) (now : Int) (nowIso : String)
    (r : MockRand) (env : LiveEnv) (y nowYear : Int)
    (hdigits : cn.toList.all Char.isDigit = true) (hlen : cn.length ≤ 10)
    (hy : pyInt fy = some y) (hy1 : 2000 ≤ y) (hy2 : y ≤ nowYear)
    (hy3 : nowYear ≤ 9999) (hr : r.Valid) :
    ∃ d, fetch_case_data ct cn fy now nowIso r env
        = (FetchResult.success d (some ("mock_data")) (some nowIso), []) ∧
      d.case_number ≠ "" ∧ d.parties.petitioner ≠ "" ∧
      d.parties.respondent ≠ "" ∧ d.filing_date ≠ "" ∧ d.next_hearing ≠ "" ∧
      d.status ≠ "" ∧ d.judge ≠ "" ∧ d.court_number.getD "" ≠ "" ∧
      d.orders ≠ [] ∧ d.case_history ≠ [] ∧ d.case_type_full.isSome = true ∧
      d.urgency.getD "" ≠ "" ∧ d.estimated_duration.getD "" ≠ "" := by
  obtain ⟨hm1, hm2, hdy1, hdy2, _, _, hpet, hresp, hstat, hjud, _, _,
    hno1, _, _, _, _, _, _, hurg, _, _⟩ := hr
  have hc := create_mock_ok ct cn fy now r y hy (by omega) (by omega)
    hm1 hm2 hdy1 hdy2
  refine ⟨mockRecord ct cn fy now
      (daysFromCivil y (r.filingMonth : Int) (r.filingDay : Int)) r,
    ?_, ?_, ?_, ?_, ?_, ?_, ?_, ?_, ?_, ?_, ?_, ?_, ?_, ?_⟩
  · unfold fetch_case_data
    rw [hc]
  · exact composed_case_number_ne ct cn fy
  · exact petitioner_names_getD_ne r.petIdx hpet
  · exact append_ne_empty_right _ (" & Ors.") (by decide)
  · exact fmtDMY_ne_empty _
  · exact fmtDMY_ne_empty _
  · exact case_statuses_getD_ne r.statusIdx hstat
  · exact judges_getD_ne r.judgeIdx hjud
  · exact append_ne_empty_left ("Court No. ") _ (by decide)
  · show _generate_mock_orders cn fy now r.numOrders r.orderRands ≠ []
    refine List.length_pos.mp ?_
    rw [gen_orders_length]
    omega
  · exact List.cons_ne_nil _ _
  · rfl
  · exact urgencies_getD_ne r.urgencyIdx hurg
  · exact append_ne_empty_right _ (" minutes") (by decide)

theorem synthetic_path_total_witness :
    ((fetch_case_data ("W.P.(C)") ("1234") ("2023") now0 iso0 r0 envGood).1.success?).isSome
      = true := by
  obtain ⟨d, hd, _⟩ := synthetic_path_total ("W.P.(C)") ("1234") ("2023")
    now0 iso0 r0 envGood 2023 2026 (by decide) (by decide) (by decide)
    (by decide) (by decide) (by decide) (by decide)
  rw [hd]
  rfl
